import Mathlib

/-!
# Verification of the Kettler Racer 9 USB-to-BLE bridge

A shallow embedding, in Lean 4, of the core logic of the bridge:

* `bike_state.py` — the `BikeState` machine (mode, gear, target power,
  SIM-mode physics);
* `kettler_usb.py` — telegram parsing (`read_and_dispatch`) and the
  pending-resistance write logic (`set_power`);
* `kettler_ble.py` — the FTMS control-point handler
  (`_handle_control_point_write`) and the Cycling Power update
  (`_update_cycling_power`, `notify_ftms`).

Python floats are modelled as exact rationals (`ℚ`); the concrete values
exercised below are exactly representable, so no binary-rounding artefact
is relevant to the statements proved.  Python `int(x)` on a float
truncates toward zero, modelled by `ratTrunc`; Python `round(x, 1)` is
round-half-to-even on the first decimal, modelled by `roundTo1`.
Event emission (`pyee` `emit`) is modelled by returning the list of
emitted events alongside the new state.
-/

/-- Truncation toward zero, the behaviour of Python `int()` on a float. -/
def ratTrunc (x : ℚ) : Int :=
  if 0 ≤ x then Int.floor x else -Int.floor (-x)

/-- Round half to even at integer precision, the behaviour of Python
`round(x)` (banker's rounding). -/
def roundHalfEven (x : ℚ) : Int :=
  let f := Int.floor x
  let frac := x - (f : ℚ)
  if frac < 1/2 then f
  else if 1/2 < frac then f + 1
  else if f % 2 = 0 then f else f + 1

/-- Python `round(x, 1)`: round half to even at one decimal place. -/
def roundTo1 (x : ℚ) : ℚ :=
  (roundHalfEven (x * 10) : ℚ) / 10

/-! ## Telemetry samples

`kettler_usb.read_and_dispatch` builds a dict with at most the keys
`hr`, `cadence`, `rpm`, `speed`, `targetPower`, `power`; each key is
present exactly when the corresponding telegram field parsed as an
integer.  The dict is modelled as a structure of optional fields. -/

/-- A parsed telemetry dict (`data_out` in `kettler_usb.read_and_dispatch`).
`none` means the key is absent from the dict. -/
structure Sample where
  hr : Option Int
  cadence : Option Int
  rpm : Option Int
  speed : Option ℚ
  targetPower : Option Int
  power : Option Int
  deriving Repr, DecidableEq

/-- The empty dict: no key present. -/
def Sample.empty : Sample := ⟨none, none, none, none, none, none⟩

/-! ## BikeState (`bike_state.py`) -/

inductive Mode where
  | ERG
  | SIM
  deriving Repr, DecidableEq

/-- Events emitted by `BikeState` (`pyee` events, by name and payload). -/
inductive BEvent where
  | mode (m : Mode)
  | gear (g : Int)
  | targetPower (p : Int)
  | simpower (p : ℚ)
  | windspeed (w : ℚ)
  | grade (g : ℚ)
  deriving Repr, DecidableEq

/-- The mutable fields of `BikeState.__init__`. -/
structure BikeState where
  data : Option Sample
  external : Option (ℚ × ℚ × ℚ × ℚ)  -- windspeed, grade, crr, cw
  mode : Mode
  gear : Int
  target_power : Option Int
  deriving Repr, DecidableEq

/-- `BikeState.__init__`: `data = None`, `external = None`, `mode = 'ERG'`,
`gear = 1`, `target_power = None`. -/
def BikeState.init : BikeState :=
  { data := none, external := none, mode := Mode.ERG, gear := 1,
    target_power := none }

/-- `BikeState.set_gear`: `self.gear = max(MIN_GEAR, min(MAX_GEAR, gear))`,
then `self.emit('gear', self.gear)`. -/
def BikeState.set_gear (s : BikeState) (gear : Int) : BikeState × List BEvent :=
  let g := max 1 (min 20 gear)
  ({ s with gear := g }, [BEvent.gear g])

/-- `BikeState.gear_up`: `self.gear = min(MAX_GEAR, self.gear + 1)`, then
`self.emit('gear', self.gear)`. -/
def BikeState.gear_up (s : BikeState) : BikeState × List BEvent :=
  let g := min 20 (s.gear + 1)
  ({ s with gear := g }, [BEvent.gear g])

/-- `BikeState.gear_down`: `self.gear = max(MIN_GEAR, self.gear - 1)`, then
`self.emit('gear', self.gear)`. -/
def BikeState.gear_down (s : BikeState) : BikeState × List BEvent :=
  let g := max 1 (s.gear - 1)
  ({ s with gear := g }, [BEvent.gear g])

/-- `BikeState.add_power`: initialize `target_power` to 100 if `None`, add
the increment, clamp to `[0, 1000]`, emit `targetPower` and `simpower`. -/
def BikeState.add_power (s : BikeState) (increment : Int) :
    BikeState × List BEvent :=
  let tp0 := s.target_power.getD 100
  let tp := max 0 (min 1000 (tp0 + increment))
  ({ s with target_power := some tp },
   [BEvent.targetPower tp, BEvent.simpower (tp : ℚ)])

/-- `BikeState.compute`: SIM-mode physics.  Returns the emitted events
(the method mutates no state).  Skips unless mode is SIM, `data` is set
and `external` is set.  `rpm = self.data.get('rpm', 80)`;
`simpower = 170 * (1 + 1.15*(rpm-80)/80) * (1 + 3*grade/100)`;
`simpower = max(0, simpower * (1 + 0.1*(gear-5)))`; rounded to 1 decimal
and emitted as `simpower`. -/
def BikeState.compute (s : BikeState) : List BEvent :=
  if s.mode = Mode.ERG then []
  else
    match s.data with
    | none => []
    | some d =>
      match s.external with
      | none => []
      | some ext =>
        let grade := ext.2.1
        let rpm : ℚ := ((d.rpm.getD 80 : Int) : ℚ)
        let base := 170 * (1 + (23/20) * (rpm - 80) / 80) * (1 + 3 * grade / 100)
        let simpower := max 0 (base * (1 + (1/10) * ((s.gear : ℚ) - 5)))
        [BEvent.simpower (roundTo1 simpower)]

/-- A single gear command, for reasoning about arbitrary sequences of
`set_gear` / `gear_up` / `gear_down` calls. -/
inductive GearOp where
  | setG (n : Int)
  | up
  | down
  deriving Repr, DecidableEq

/-- Apply one gear command. -/
def BikeState.applyGearOp (s : BikeState) (op : GearOp) : BikeState :=
  match op with
  | GearOp.setG n => (s.set_gear n).1
  | GearOp.up => s.gear_up.1
  | GearOp.down => s.gear_down.1

/-- Apply a sequence of gear commands, left to right. -/
def BikeState.applyGearOps (s : BikeState) (ops : List GearOp) : BikeState :=
  ops.foldl BikeState.applyGearOp s

/-! ## KettlerUSB (`kettler_usb.py`)

A serial line is modelled as its list of characters; Python
`data.split('\t')` is modelled by `pySplit '\t'`. -/

/-- Python `str.split(sep)`: split at every occurrence of the separator;
`n` separators yield `n + 1` (possibly empty) chunks. -/
def pySplit (sep : Char) : List Char → List (List Char)
  | [] => [[]]
  | c :: cs =>
    if c = sep then [] :: pySplit sep cs
    else
      match pySplit sep cs with
      | [] => [[c]]
      | f :: rest => (c :: f) :: rest

/-- Decimal value of a digit list (most significant first). -/
def digitsVal (l : List Char) : Nat :=
  l.foldl (fun a c => 10 * a + (c.toNat - 48)) 0

/-- Model of Python `int()` applied to a string: optional surrounding
whitespace, an optional sign, then at least one decimal digit; anything
else raises `ValueError`, modelled as `none`. -/
def pyInt (s : List Char) : Option Int :=
  let t := ((s.dropWhile Char.isWhitespace).reverse.dropWhile
      Char.isWhitespace).reverse
  let core : Int × List Char :=
    match t with
    | [] => (1, [])
    | c :: rest =>
      if c = '+' then (1, rest)
      else if c = '-' then (-1, rest)
      else (1, c :: rest)
  if core.2 ≠ [] ∧ core.2.all Char.isDigit then
    some (core.1 * (digitsVal core.2 : Int))
  else none

/-- The events `KettlerUSB.read_and_dispatch` can emit for one line:
a `data` event carrying the parsed dict, or a `key` event. -/
inductive USBEvent where
  | data (d : Sample)
  | key (k : Int)
  deriving Repr, DecidableEq

/-- The dict built for an 8-field ST telegram: field 1 (`states[0]`) is
heart rate, field 2 (`states[1]`) is cadence and rpm, field 3
(`states[2]`) is speed in tenths of km/h, field 5 (`states[4]`) is the
hardware target power, field 8 (`states[7]`) is current power; a field
that fails `int()` parsing is left out of the dict. -/
def sampleOfFields (states : List (List Char)) : Sample :=
  { speed := (pyInt (states.getD 2 [])).map (fun n : Int => (n : ℚ) * (1/10)),
    power := pyInt (states.getD 7 []),
    targetPower := pyInt (states.getD 4 []),
    cadence := pyInt (states.getD 1 []),
    rpm := pyInt (states.getD 1 []),
    hr := pyInt (states.getD 0 []) }

/-- `KettlerUSB.read_and_dispatch`: tokenize on tabs; 8 fields are an ST
telegram whose dict is emitted as a `data` event if non-empty; 4 fields
are a key-press telegram; anything else is dropped. -/
def read_and_dispatch (line : List Char) : Option USBEvent :=
  let states := pySplit '\t' line
  if states.length = 8 then
    let d := sampleOfFields states
    if d ≠ Sample.empty then some (USBEvent.data d) else none
  else if states.length = 4 then
    (pyInt (states.getD 3 [])).map USBEvent.key
  else none

/-- The sample ST telegram from the source comment:
`101\t047\t074\t002\t025\t0312\t01:12\t025`. -/
def exTelegram : List Char :=
  "101\t047\t074\t002\t025\t0312\t01:12\t025".toList

/-- What `read_and_dispatch` does to a line that tokenizes into exactly 8
fields: the dict maps telegram field 1 to heart rate, field 2 to both
cadence and rpm, field 3 divided by 10 to speed, field 5 to the hardware
target power and field 8 to current power, each key present exactly when
its field parses as an integer, and a `data` event is emitted exactly
when the dict is non-empty, i.e. when at least one of those five fields
parsed. -/
def STParseSpec (line : List Char) : Prop :=
  read_and_dispatch line =
    (if sampleOfFields (pySplit '\t' line) ≠ Sample.empty
     then some (USBEvent.data (sampleOfFields (pySplit '\t' line)))
     else none) ∧
  sampleOfFields (pySplit '\t' line) =
    { hr := pyInt ((pySplit '\t' line).getD 0 []),
      cadence := pyInt ((pySplit '\t' line).getD 1 []),
      rpm := pyInt ((pySplit '\t' line).getD 1 []),
      speed := (pyInt ((pySplit '\t' line).getD 2 [])).map
        (fun n : Int => (n : ℚ) * (1/10)),
      targetPower := pyInt ((pySplit '\t' line).getD 4 []),
      power := pyInt ((pySplit '\t' line).getD 7 []) } ∧
  (sampleOfFields (pySplit '\t' line) = Sample.empty ↔
    pyInt ((pySplit '\t' line).getD 0 []) = none ∧
    pyInt ((pySplit '\t' line).getD 1 []) = none ∧
    pyInt ((pySplit '\t' line).getD 2 []) = none ∧
    pyInt ((pySplit '\t' line).getD 4 []) = none ∧
    pyInt ((pySplit '\t' line).getD 7 []) = none)

/-- The power-control fields of `KettlerUSB.__init__`:
`self.write_power = False`, `self.power = -1`. -/
structure UsbState where
  power : Int
  write_power : Bool
  deriving Repr, DecidableEq

/-- Initial `KettlerUSB` power-control state. -/
def UsbState.init : UsbState := ⟨-1, false⟩

/-- `KettlerUSB.set_power`: `p = max(0, int(power))`; if `p != self.power`
then store it and set the pending-write flag, else do nothing. -/
def UsbState.set_power (s : UsbState) (power : ℚ) : UsbState :=
  let p := max 0 (ratTrunc power)
  if p ≠ s.power then { power := p, write_power := true } else s

/-! ## KettlerBLE (`kettler_ble.py`) -/

/-- Little-endian encoding of a 16-bit unsigned value (`struct.pack
with format <H`), as two bytes. -/
def u16le (n : Nat) : List Nat := [n % 256, n / 256 % 256]

/-- Little-endian encoding of a 16-bit signed value (`struct.pack with
format <h`), as the two bytes of its two's complement. -/
def s16le (p : Int) : List Nat := u16le (p.emod 65536).toNat

/-- Little-endian decoding of a 16-bit signed value (`struct.unpack with
format <h`) from two bytes. -/
def s16dec (lo hi : Nat) : Int :=
  let u := lo + 256 * hi
  if u < 32768 then (u : Int) else (u : Int) - 65536

/-- Commands forwarded through `control_callback` to the server. -/
inductive Cmd where
  | control
  | reset
  | power (watts : Nat)
  | start
  | stop
  | simulation (windspeed grade crr cw : ℚ)
  deriving Repr, DecidableEq

/-- The return values of `control_callback` for the command kinds whose
return value the handler inspects. -/
structure Callback where
  grantControl : Bool
  acceptPower : Bool
  acceptSim : Bool
  deriving Repr, DecidableEq

/-- Pushed notifications (only sent when the characteristic has a
subscriber). -/
inductive Push where
  | indoorBike (b : List Nat)
  | cyclingPower (b : List Nat)
  deriving Repr, DecidableEq

/-- The mutable bridge state of `KettlerBLE`: the control-point
authorization flag, the stored characteristic values, the crank counter
(cumulative revolutions as an exact rational, event time in 1/1024-second
ticks, timestamp of the previous update), and the subscription flags for
the notifiable characteristics. -/
structure BLEState where
  under_control : Bool
  indoor_bike_data : List Nat
  cycling_power_data : List Nat
  crank_revolutions : ℚ
  last_event_time : Int
  last_update_timestamp : ℚ
  indoor_subscribed : Bool
  power_subscribed : Bool
  control_subscribed : Bool
  deriving Repr, DecidableEq

/-- The bridge state built by `KettlerBLE.__init__`: not under control,
zeroed characteristic buffers (10 and 8 bytes), zeroed crank counter, the
construction time `t0` as the last update timestamp, and no subscribers
yet. -/
def BLEState.init (t0 : ℚ) : BLEState :=
  { under_control := false,
    indoor_bike_data := List.replicate 10 0,
    cycling_power_data := List.replicate 8 0,
    crank_revolutions := 0,
    last_event_time := 0,
    last_update_timestamp := t0,
    indoor_subscribed := false,
    power_subscribed := false,
    control_subscribed := false }

/-- A second reading of the Set Target Power payload, following the
spec's words: the little-endian 16-bit SIGNED integer decoded from
payload bytes 1..3 (`s16dec`), to be compared with what the code
forwards. -/
def specSignedTargetPower (value : List Nat) : Int :=
  s16dec (value.getD 1 0) (value.getD 2 0)

/-- `KettlerBLE._handle_control_point_write`.  Returns the new bridge
state, the list of 3-byte responses `[0x80, opcode, result]` handed to
`_send_control_point_response` (delivery of each is further gated on the
control-point subscriber being present), and the commands forwarded
through `control_callback`, in order. -/
def handleControlPoint (s : BLEState) (value : List Nat) (cb : Callback) :
    BLEState × List (List Nat) × List Cmd :=
  match value with
  | [] => (s, [], [])
  | opcode :: _ =>
    if opcode = 0x00 then
      if ¬ s.under_control then
        if cb.grantControl then
          ({ s with under_control := true }, [[0x80, opcode, 0x01]], [Cmd.control])
        else (s, [[0x80, opcode, 0x04]], [Cmd.control])
      else (s, [[0x80, opcode, 0x01]], [])
    else if opcode = 0x01 then
      if s.under_control then
        ({ s with under_control := false }, [[0x80, opcode, 0x01]], [Cmd.reset])
      else (s, [[0x80, opcode, 0x05]], [])
    else if opcode = 0x05 then
      if s.under_control then
        if 3 ≤ value.length then
          let power := value.getD 1 0 + 256 * value.getD 2 0
          if cb.acceptPower then (s, [[0x80, opcode, 0x01]], [Cmd.power power])
          else (s, [[0x80, opcode, 0x04]], [Cmd.power power])
        else (s, [[0x80, opcode, 0x03]], [])
      else (s, [[0x80, opcode, 0x05]], [])
    else if opcode = 0x07 then (s, [[0x80, opcode, 0x01]], [Cmd.start])
    else if opcode = 0x08 then (s, [[0x80, opcode, 0x01]], [Cmd.stop])
    else if opcode = 0x11 then
      if 7 ≤ value.length then
        let windspeed := (s16dec (value.getD 1 0) (value.getD 2 0) : ℚ) * (1/1000)
        let grade := (s16dec (value.getD 3 0) (value.getD 4 0) : ℚ) * (1/100)
        let crr := if 5 < value.length then (value.getD 5 0 : ℚ) * (1/10000) else 1/200
        let cw := if 6 < value.length then (value.getD 6 0 : ℚ) * (1/100) else 39/100
        if cb.acceptSim then
          (s, [[0x80, opcode, 0x01]], [Cmd.simulation windspeed grade crr cw])
        else (s, [[0x80, opcode, 0x04]], [Cmd.simulation windspeed grade crr cw])
      else (s, [[0x80, opcode, 0x03]], [])
    else (s, [[0x80, opcode, 0x02]], [])

/-- `KettlerBLE._update_indoor_bike_data`.  The whole body runs inside a
`try`; a `struct.pack_into` or byte-assignment range error leaves the
stored value untouched and pushes nothing, which the failure guard
models.  Otherwise the 10-byte buffer is stored and pushed when the
Indoor Bike Data characteristic has a notifying subscriber. -/
def updateIndoorBike (s : BLEState) (d : Sample) : BLEState × List Push :=
  let speed := d.speed.getD 0
  let speed_value := ratTrunc (speed * 100)
  let cadence_value := 2 * d.rpm.getD 0
  let power := d.power.getD 0
  let hr := d.hr.getD 0
  if speed_value < 0 ∨ 65535 < speed_value ∨ cadence_value < 0 ∨
      65535 < cadence_value ∨ power < -32768 ∨ 32767 < power ∨ 255 < hr then
    (s, [])
  else
    let hrByte := if 0 < hr then hr.toNat else 0
    let buffer := [0x44, 0x02] ++ u16le speed_value.toNat ++
      u16le cadence_value.toNat ++ s16le power ++ [hrByte, 0]
    let s1 := { s with indoor_bike_data := buffer }
    if s1.indoor_subscribed then (s1, [Push.indoorBike buffer]) else (s1, [])

/-- `KettlerBLE._update_cycling_power`.  Computes `Δt` against the stored
timestamp, accumulates `(rpm/60)·Δt` fractional crank revolutions,
advances the event-time counter by `int(Δt·1024)` ticks, and encodes the
8-byte Cycling Power Measurement (flags `0x0020`, sint16 power, uint16
wrapped crank revolutions, uint16 wrapped event time).  A `struct.pack`
range error on the power value aborts after the counter updates (the
body's `try` swallows it), leaving the stored bytes unchanged. -/
def updateCyclingPower (s : BLEState) (d : Sample) (now : ℚ) :
    BLEState × List Push :=
  let time_delta := now - s.last_update_timestamp
  let rpm := d.rpm.getD 0
  let cr := s.crank_revolutions + ((rpm : ℚ) / 60) * time_delta
  let et := s.last_event_time + ratTrunc (time_delta * 1024)
  let s1 := { s with crank_revolutions := cr, last_event_time := et,
                     last_update_timestamp := now }
  let power := d.power.getD 0
  if power < -32768 ∨ 32767 < power then (s1, [])
  else
    let crank_rev_uint16 := ((ratTrunc cr).emod 65536).toNat
    let event_time_uint16 := (et.emod 65536).toNat
    let buffer := [0x20, 0x00] ++ s16le power ++ u16le crank_rev_uint16 ++
      u16le event_time_uint16
    let s2 := { s1 with cycling_power_data := buffer }
    if s2.power_subscribed then (s2, [Push.cyclingPower buffer]) else (s2, [])

/-- `KettlerBLE.notify_ftms`: ignore an empty dict; update Indoor Bike
Data when the dict has a `speed`, `rpm` or `power` key; update Cycling
Power only when it has a `power` key. -/
def notify_ftms (s : BLEState) (d : Sample) (now : ℚ) :
    BLEState × List Push :=
  if d = Sample.empty then (s, [])
  else
    let r1 := if d.speed.isSome ∨ d.rpm.isSome ∨ d.power.isSome then
        updateIndoorBike s d
      else (s, [])
    let r2 := if d.power.isSome then updateCyclingPower r1.1 d now
      else (r1.1, [])
    (r2.1, r1.2 ++ r2.2)

/-! ## Helper lemmas -/

/-- Any sequence of gear commands keeps the gear inside `[1, 20]`,
provided it starts there. -/
theorem applyGearOps_bounds (ops : List GearOp) :
    ∀ s : BikeState, 1 ≤ s.gear → s.gear ≤ 20 →
      1 ≤ (s.applyGearOps ops).gear ∧ (s.applyGearOps ops).gear ≤ 20 := by
  induction ops with
  | nil => exact fun s h1 h2 => ⟨h1, h2⟩
  | cons op rest ih =>
    intro s h1 h2
    have hstep : 1 ≤ (s.applyGearOp op).gear ∧ (s.applyGearOp op).gear ≤ 20 := by
      cases op <;>
        simp only [BikeState.applyGearOp, BikeState.set_gear, BikeState.gear_up,
          BikeState.gear_down] <;>
        omega
    exact ih (s.applyGearOp op) hstep.1 hstep.2

/-! ## Claim theorems -/

/-- C6: for every `addPower(delta)` call, an unset target power is first
initialized to 100, the result of adding the delta is clamped to
`[0, 1000]`, and both a target-power-changed and a resistance-command
(`simpower`) event are emitted carrying the resulting value. -/
theorem addPower_initializes_clamps_and_emits (s : BikeState) (increment : Int) :
    (s.add_power increment).1.target_power =
      some (max 0 (min 1000 (s.target_power.getD 100 + increment))) ∧
    (s.add_power increment).2 =
      [BEvent.targetPower (max 0 (min 1000 (s.target_power.getD 100 + increment))),
       BEvent.simpower ((max 0 (min 1000 (s.target_power.getD 100 + increment)) : Int) : ℚ)] ∧
    0 ≤ max 0 (min 1000 (s.target_power.getD 100 + increment)) ∧
    max 0 (min 1000 (s.target_power.getD 100 + increment)) ≤ 1000 := by
  refine ⟨rfl, rfl, ?_, ?_⟩ <;> omega

/-- C7: every sequence of `set_gear` / `gear_up` / `gear_down` calls from
the initial state keeps the gear in `[1, 20]`; `gear_up` at gear 20 and
`gear_down` at gear 1 leave the state unchanged and still emit the
unchanged gear value. -/
theorem gear_invariant_and_saturation :
    (∀ ops : List GearOp, 1 ≤ (BikeState.init.applyGearOps ops).gear ∧
      (BikeState.init.applyGearOps ops).gear ≤ 20) ∧
    (∀ s : BikeState, BikeState.gear_up { s with gear := 20 } =
      ({ s with gear := 20 }, [BEvent.gear 20])) ∧
    (∀ s : BikeState, BikeState.gear_down { s with gear := 1 } =
      ({ s with gear := 1 }, [BEvent.gear 1])) := by
  refine ⟨fun ops => applyGearOps_bounds ops BikeState.init (by decide) (by decide),
    fun s => ?_, fun s => ?_⟩
  · simp [BikeState.gear_up]
  · simp [BikeState.gear_down]

/-- C8 counterexample: in the initial state (gear 1), `set_gear 1` clamps
to a value equal to the current gear, yet still emits a gear-changed
event — the claimed silent no-op does not exist in the code. -/
theorem setGear_equal_gear_still_emits :
    max 1 (min 20 (1 : Int)) = BikeState.init.gear ∧
    (BikeState.init.set_gear 1).2 = [BEvent.gear 1] ∧
    (BikeState.init.set_gear 1).2 ≠ [] := by
  refine ⟨by decide, rfl, by decide⟩

/-- C8 (amended): `set_gear n` always sets the gear to `n` clamped to
`[1, 20]` and always emits a gear-changed event carrying the clamped
value, also when the clamped value equals the current gear; no error or
silent no-op path exists. -/
theorem setGear_clamps_and_always_emits (s : BikeState) (n : Int) :
    (s.set_gear n).1 = { s with gear := max 1 (min 20 n) } ∧
    (s.set_gear n).2 = [BEvent.gear (max 1 (min 20 n))] ∧
    1 ≤ (s.set_gear n).1.gear ∧ (s.set_gear n).1.gear ≤ 20 := by
  refine ⟨rfl, rfl, ?_, ?_⟩ <;>
    · have hg : (s.set_gear n).1.gear = max 1 (min 20 n) := rfl
      omega

/-- C9: `set_power` clamps the requested value to `≥ 0`, records a
pending write only when the clamped value differs from the last
requested one, and is idempotent: a second call with the same argument
changes neither the stored value nor the pending flag. -/
theorem setResistance_clamps_and_idempotent (s : UsbState) (w : ℚ) :
    (s.set_power w).power = max 0 (ratTrunc w) ∧
    0 ≤ (s.set_power w).power ∧
    (s.set_power w).write_power =
      (if max 0 (ratTrunc w) = s.power then s.write_power else true) ∧
    (s.set_power w).set_power w = s.set_power w := by
  by_cases h : max 0 (ratTrunc w) = s.power
  · have hs : s.set_power w = s := by simp [UsbState.set_power, h]
    refine ⟨?_, ?_, ?_, ?_⟩
    · rw [hs]; exact h.symm
    · rw [hs, ← h]; exact le_max_left 0 _
    · rw [hs, if_pos h]
    · rw [hs, hs]
  · have hs : s.set_power w =
        { power := max 0 (ratTrunc w), write_power := true } := by
      simp [UsbState.set_power, h]
    refine ⟨?_, ?_, ?_, ?_⟩
    · rw [hs]
    · rw [hs]; exact le_max_left 0 _
    · rw [hs, if_neg h]
    · rw [hs]; simp [UsbState.set_power]

/-- C3: whenever `compute` runs with mode SIM, a sample present and
external conditions set, the emitted `simpower` is
`round₁(max(0, 170·(1 + 1.15·(rpm−80)/80)·(1 + 3·grade/100)·(1 + 0.1·(gear−5))))`
with `rpm` defaulting to 80 when the sample has no cadence; in
particular `rpm=80, grade=0, gear=5` gives 170.0 and
`rpm=100, grade=3, gear=8` gives 310.1; no upper clamp to 1000 is
applied (`rpm=160, grade=10, gear=20` emits 1187.9 > 1000). -/
theorem compute_sim_physics :
    (∀ (d : Sample) (e : ℚ × ℚ × ℚ × ℚ) (g : Int) (tp : Option Int),
      BikeState.compute ⟨some d, some e, Mode.SIM, g, tp⟩ =
        [BEvent.simpower (roundTo1 (max 0
          (170 * (1 + (23/20) * (((d.rpm.getD 80 : Int) : ℚ) - 80) / 80)
            * (1 + 3 * e.2.1 / 100) * (1 + (1/10) * ((g : ℚ) - 5)))))]) ∧
    BikeState.compute ⟨some { Sample.empty with rpm := some 80 },
        some (0, 0, 1/200, 39/100), Mode.SIM, 5, none⟩ =
      [BEvent.simpower 170] ∧
    BikeState.compute ⟨some Sample.empty,
        some (0, 0, 1/200, 39/100), Mode.SIM, 5, none⟩ =
      [BEvent.simpower 170] ∧
    BikeState.compute ⟨some { Sample.empty with rpm := some 100 },
        some (0, 3, 1/200, 39/100), Mode.SIM, 8, none⟩ =
      [BEvent.simpower (3101/10)] ∧
    (BikeState.compute ⟨some { Sample.empty with rpm := some 160 },
        some (0, 10, 1/200, 39/100), Mode.SIM, 20, none⟩ =
      [BEvent.simpower (11879/10)] ∧ (1000 : ℚ) < 11879/10) := by
  refine ⟨fun d e g tp => rfl, ?_, ?_, ?_, ?_, by norm_num⟩ <;>
    norm_num [BikeState.compute, roundTo1, roundHalfEven, Sample.empty,
      show ¬ Mode.SIM = Mode.ERG from by decide]

/-- C4: every line that tokenizes into exactly 8 tab-separated fields is
parsed as described by `STParseSpec` — telegram field 1 → heart rate,
field 2 → cadence and rpm, field 3 divided by 10 → speed, field 5 →
hardware target power, field 8 → current power, a field that fails
integer parsing is omitted, and a sample is emitted iff at least one
field parsed; the example telegram yields hr 101, cadence/rpm 47,
speed 7.4, target power 25, power 25. -/
theorem st_telegram_parsing :
    (∀ line : List Char, (pySplit '\t' line).length = 8 → STParseSpec line) ∧
    read_and_dispatch exTelegram =
      some (USBEvent.data
        { hr := some 101, cadence := some 47, rpm := some 47,
          speed := some (37/5), targetPower := some 25, power := some 25 }) := by
  constructor
  · intro line h
    refine ⟨by simp [read_and_dispatch, h], rfl, ?_⟩
    constructor
    · intro hd
      have hspeed : Option.map (fun n : Int => (n : ℚ) * (1/10))
          (pyInt ((pySplit '\t' line).getD 2 [])) = none :=
        congrArg Sample.speed hd
      refine ⟨congrArg Sample.hr hd, congrArg Sample.cadence hd,
        Option.map_eq_none'.mp hspeed,
        congrArg Sample.targetPower hd, congrArg Sample.power hd⟩
    · intro ⟨h0, h1, h2, h4, h7⟩
      show Sample.mk _ _ _ _ _ _ = Sample.empty
      rw [Sample.empty, h0, h1, h2, h4, h7]
      rfl
  · have h8 : (pySplit '\t' exTelegram).length = 8 := by decide
    have hs : sampleOfFields (pySplit '\t' exTelegram) =
        { hr := some 101, cadence := some 47, rpm := some 47,
          speed := some (37/5), targetPower := some 25, power := some 25 } := by
      simp only [sampleOfFields,
        show pyInt ((pySplit '\t' exTelegram).getD 0 []) = some 101 from by decide,
        show pyInt ((pySplit '\t' exTelegram).getD 1 []) = some 47 from by decide,
        show pyInt ((pySplit '\t' exTelegram).getD 2 []) = some 74 from by decide,
        show pyInt ((pySplit '\t' exTelegram).getD 4 []) = some 25 from by decide,
        show pyInt ((pySplit '\t' exTelegram).getD 7 []) = some 25 from by decide,
        Option.map_some', Sample.mk.injEq]
      norm_num
    simp [read_and_dispatch, h8, hs, Sample.empty, Sample.mk.injEq]

/-- C4 witness: the example telegram has exactly 8 tab-separated fields
and therefore satisfies `STParseSpec`. -/
theorem st_telegram_parsing_witness :
    (pySplit '\t' exTelegram).length = 8 ∧ STParseSpec exTelegram :=
  ⟨by decide, st_telegram_parsing.1 exTelegram (by decide)⟩

/-- A closed decidable proposition reduces truncation to floor on
non-negative rationals: `int()` and mathematical floor agree there. -/
theorem ratTrunc_eq_floor {x : ℚ} (h : 0 ≤ x) : ratTrunc x = Int.floor x :=
  if_pos h

/-- For a non-negative integer, wrapping by `emod 65536` and then taking
`toNat` is plain `% 65536` on the `toNat`. -/
theorem toNat_emod_65536 (a : Int) (h : 0 ≤ a) :
    (a.emod 65536).toNat = a.toNat % 65536 := by
  obtain ⟨m, rfl⟩ := Int.eq_ofNat_of_zero_le h
  show ((↑m : Int) % (65536 : Int)).toNat = ((↑m : Int)).toNat % 65536
  norm_cast

/-- C1 counterexample: an authorized Set Target Power write with payload
bytes `0x00 0x80` forwards 32768 to `setTargetPower`, while the
little-endian 16-bit signed reading of those bytes is −32768 — the code
decodes the payload as unsigned (`struct.unpack` with format `<H`), not
signed. -/
theorem ctrl_setTargetPower_signed_counterexample :
    (handleControlPoint { BLEState.init 0 with under_control := true }
        [0x05, 0x00, 0x80] ⟨true, true, true⟩).2.2 = [Cmd.power 32768] ∧
    specSignedTargetPower [0x05, 0x00, 0x80] = -32768 ∧
    (32768 : Int) ≠ -32768 := by
  refine ⟨?_, ?_, by decide⟩ <;> decide

/-- C1 (amended): for every control-point write whose first byte is
opcode `0x05` with at least 3 bytes in total, received while authorized,
the value forwarded to `setTargetPower` is the little-endian 16-bit
UNSIGNED integer `b1 + 256·b2` decoded from payload bytes 1..3; the
bridge state is left unchanged. -/
theorem ctrl_setTargetPower_forwards_unsigned (s : BLEState) (cb : Callback)
    (b1 b2 : Nat) (rest : List Nat) :
    (handleControlPoint { s with under_control := true }
        (0x05 :: b1 :: b2 :: rest) cb).2.2 = [Cmd.power (b1 + 256 * b2)] ∧
    (handleControlPoint { s with under_control := true }
        (0x05 :: b1 :: b2 :: rest) cb).1 = { s with under_control := true } := by
  have hlen : 3 ≤ ((0x05 : Nat) :: b1 :: b2 :: rest).length := by
    simp only [List.length_cons]
    omega
  rcases cb with ⟨g, ap, asim⟩
  cases ap <;> simp [handleControlPoint, hlen]

/-- C2: with the control-point state machine started unauthorized, a
2-byte Set Target Power write while authorized produces the indication
`[0x80, 0x05, 0x03]` (invalid parameter), the same write while
unauthorized produces `[0x80, 0x05, 0x05]` (control not permitted), and
a Request Control write while already authorized produces
`[0x80, 0x00, 0x01]` and leaves the authorized flag and every other
bridge field unchanged; none of the three forwards a command. -/
theorem ctrl_point_error_and_reauth_paths (s : BLEState) (cb : Callback) (x : Nat) :
    handleControlPoint { s with under_control := true } [0x05, x] cb =
      ({ s with under_control := true }, [[0x80, 0x05, 0x03]], []) ∧
    handleControlPoint { s with under_control := false } [0x05, x] cb =
      ({ s with under_control := false }, [[0x80, 0x05, 0x05]], []) ∧
    handleControlPoint { s with under_control := true } [0x00] cb =
      ({ s with under_control := true }, [[0x80, 0x00, 0x01]], []) := by
  refine ⟨?_, ?_, ?_⟩ <;> simp [handleControlPoint]

/-- C5: a Cycling Power update with elapsed time `Δt ≥ 0` and a
non-negative crank state adds exactly `(rpm/60)·Δt` (untruncated) to the
cumulative crank revolutions, adds `⌊Δt·1024⌋` ticks to the event-time
counter, and encodes, in the 8-byte measurement, the crank revolutions
as `⌊cumulative⌋ mod 65536` (bytes 4..6) and the event time as the tick
counter `mod 65536` (bytes 6..8), both little-endian uint16. -/
theorem cycling_power_update_crank_tracking (s : BLEState) (d : Sample)
    (now : ℚ)
    (hts : s.last_update_timestamp ≤ now)
    (hrpm : 0 ≤ d.rpm.getD 0)
    (hcr : 0 ≤ s.crank_revolutions)
    (het : 0 ≤ s.last_event_time)
    (hpow1 : -32768 ≤ d.power.getD 0) (hpow2 : d.power.getD 0 ≤ 32767) :
    (updateCyclingPower s d now).1.crank_revolutions =
      s.crank_revolutions +
        ((d.rpm.getD 0 : Int) : ℚ) / 60 * (now - s.last_update_timestamp) ∧
    (updateCyclingPower s d now).1.last_event_time =
      s.last_event_time + Int.floor ((now - s.last_update_timestamp) * 1024) ∧
    ((updateCyclingPower s d now).1.cycling_power_data.drop 4).take 2 =
      u16le ((Int.floor (updateCyclingPower s d now).1.crank_revolutions).toNat
        % 65536) ∧
    ((updateCyclingPower s d now).1.cycling_power_data.drop 6).take 2 =
      u16le ((updateCyclingPower s d now).1.last_event_time.toNat % 65536) := by
  have hΔ : 0 ≤ now - s.last_update_timestamp := sub_nonneg.mpr hts
  have hrpmq : (0 : ℚ) ≤ ((d.rpm.getD 0 : Int) : ℚ) := by
    exact_mod_cast hrpm
  have hcr' : 0 ≤ s.crank_revolutions +
      ((d.rpm.getD 0 : Int) : ℚ) / 60 * (now - s.last_update_timestamp) :=
    add_nonneg hcr (mul_nonneg (div_nonneg hrpmq (by norm_num)) hΔ)
  have htick : ratTrunc ((now - s.last_update_timestamp) * 1024) =
      Int.floor ((now - s.last_update_timestamp) * 1024) :=
    ratTrunc_eq_floor (mul_nonneg hΔ (by norm_num))
  have hcrtr : ratTrunc (s.crank_revolutions +
      ((d.rpm.getD 0 : Int) : ℚ) / 60 * (now - s.last_update_timestamp)) =
      Int.floor (s.crank_revolutions +
        ((d.rpm.getD 0 : Int) : ℚ) / 60 * (now - s.last_update_timestamp)) :=
    ratTrunc_eq_floor hcr'
  have hguard : ¬ (d.power.getD 0 < -32768 ∨ 32767 < d.power.getD 0) := by
    omega
  have hetfl : 0 ≤ s.last_event_time +
      Int.floor ((now - s.last_update_timestamp) * 1024) :=
    add_nonneg het (Int.floor_nonneg.mpr (mul_nonneg hΔ (by norm_num)))
  have hcrfl : 0 ≤ Int.floor (s.crank_revolutions +
      ((d.rpm.getD 0 : Int) : ℚ) / 60 * (now - s.last_update_timestamp)) :=
    Int.floor_nonneg.mpr hcr'
  cases hsub : s.power_subscribed <;>
    simp [updateCyclingPower, hguard, htick, hcrtr, hsub, u16le, s16le,
      toNat_emod_65536 _ hcrfl, toNat_emod_65536 _ hetfl]

/-- C5 witness: from the freshly initialized bridge state, a sample with
rpm 90 and power 100 arriving 1 second later adds exactly 1.5 crank
revolutions and 1024 event-time ticks. -/
theorem cycling_power_update_crank_tracking_witness :
    (updateCyclingPower (BLEState.init 0)
        { Sample.empty with rpm := some 90, power := some 100 }
        1).1.crank_revolutions =
      (BLEState.init 0).crank_revolutions +
        (((({ Sample.empty with rpm := some 90, power := some 100 } :
            Sample).rpm.getD 0 : Int)) : ℚ) / 60 *
          (1 - (BLEState.init 0).last_update_timestamp) ∧
    (updateCyclingPower (BLEState.init 0)
        { Sample.empty with rpm := some 90, power := some 100 }
        1).1.last_event_time =
      (BLEState.init 0).last_event_time +
        Int.floor ((1 - (BLEState.init 0).last_update_timestamp) * 1024) :=
  ⟨(cycling_power_update_crank_tracking (BLEState.init 0)
      { Sample.empty with rpm := some 90, power := some 100 } 1
      (by norm_num [BLEState.init]) (by decide)
      (by norm_num [BLEState.init]) (by decide) (by decide) (by decide)).1,
   (cycling_power_update_crank_tracking (BLEState.init 0)
      { Sample.empty with rpm := some 90, power := some 100 } 1
      (by norm_num [BLEState.init]) (by decide)
      (by norm_num [BLEState.init]) (by decide) (by decide) (by decide)).2.1⟩

/-- C10: a telemetry sample without a `power` key leaves the whole
Cycling Power state untouched — cumulative crank revolutions, the
event-time tick counter, the last-update timestamp and the stored
measurement bytes — and pushes no Cycling Power notification, whatever
other keys the sample carries. -/
theorem no_power_key_skips_cycling_power (s : BLEState)
    (h c r tp : Option Int) (sp : Option ℚ) (now : ℚ) :
    (notify_ftms s ⟨h, c, r, sp, tp, none⟩ now).1.crank_revolutions =
      s.crank_revolutions ∧
    (notify_ftms s ⟨h, c, r, sp, tp, none⟩ now).1.last_event_time =
      s.last_event_time ∧
    (notify_ftms s ⟨h, c, r, sp, tp, none⟩ now).1.last_update_timestamp =
      s.last_update_timestamp ∧
    (notify_ftms s ⟨h, c, r, sp, tp, none⟩ now).1.cycling_power_data =
      s.cycling_power_data ∧
    ∀ b, Push.cyclingPower b ∉ (notify_ftms s ⟨h, c, r, sp, tp, none⟩ now).2 := by
  simp only [notify_ftms, updateIndoorBike]
  split_ifs <;> simp_all
